import Mathlib

/-!
Verification of the EMTradingAgent core against its specification.

Shallow embedding of `src/emta/models/trading.py` and
`src/emta/core/agent.py`: the loosely-typed wire mappings become
association lists of `RawValue`s; Python `float` and `decimal.Decimal`
values are represented exactly by a decimal mantissa and scale
(value = mantissa / 10 ^ scale); fallible construction (a Python
exception) is `Option`; and the trading agent's mutable session state
becomes explicit state passing, together with a trace of the
collaborator calls each operation issues (so that "collaborator not
invoked" is provable).
-/

namespace EMTA

/-- A loosely-typed wire value as found in the JSON response mappings:
a string, a Python `int`, or a Python `float` / `decimal.Decimal`.
The latter two are represented exactly as `dec m e`, standing for the
decimal number `m / 10 ^ e` (this is how `decimal.Decimal` itself
stores values; every float literal this code receives is a decimal
numeral, so the representation is exact). -/
inductive RawValue where
  | str (s : String)
  | int (n : ℤ)
  | dec (m : ℤ) (e : ℕ)
deriving DecidableEq, Repr

/-- Numeric value of a raw value, when it is numeric. -/
def RawValue.val? : RawValue → Option ℚ
  | .str _ => none
  | .int n => some (n : ℚ)
  | .dec m e => some ((m : ℚ) / (10 : ℚ) ^ e)

/-- Value of a digit character. -/
def digitVal (c : Char) : ℕ := c.toNat - 48

/-- Value of a most-significant-first digit string. -/
def digitsToNat (cs : List Char) : ℕ :=
  cs.foldl (fun acc c => acc * 10 + digitVal c) 0

/-- Parse a plain decimal numeral string (optional sign, digits,
optional fractional part) into an exact mantissa/scale pair.  This is
the common grammar accepted by both Python `float(s)` and
`decimal.Decimal(s)` for the plain numerals this code receives;
malformed strings such as `""` or `"abc"`, on which both Python
conversions raise, give `none`. -/
def parseDecStr? (s : String) : Option (ℤ × ℕ) :=
  let cs := s.toList
  let sgn : ℤ := match cs with
    | '-' :: _ => -1
    | _ => 1
  let body : List Char := match cs with
    | '-' :: rest => rest
    | '+' :: rest => rest
    | _ => cs
  let intPart := body.takeWhile Char.isDigit
  let rest := body.dropWhile Char.isDigit
  match rest with
  | [] =>
    if intPart.isEmpty then none
    else some (sgn * (digitsToNat intPart : ℤ), 0)
  | '.' :: frac =>
    if frac.all Char.isDigit && !(intPart.isEmpty && frac.isEmpty) then
      some (sgn * ((digitsToNat intPart * 10 ^ frac.length + digitsToNat frac : ℕ) : ℤ),
        frac.length)
    else none
  | _ => none

/-- Parse an integer numeral string (optional sign, digits), as Python
`int(s)` does; malformed strings give `none`. -/
def parseIntStr? (s : String) : Option ℤ :=
  let cs := s.toList
  let sgn : ℤ := match cs with
    | '-' :: _ => -1
    | _ => 1
  let body : List Char := match cs with
    | '-' :: rest => rest
    | '+' :: rest => rest
    | _ => cs
  if !body.isEmpty && body.all Char.isDigit then
    some (sgn * (digitsToNat body : ℤ))
  else none

/-- A raw wire mapping (Python `dict` of loosely-typed values), as an
association list. -/
abbrev RawDict : Type := List (String × RawValue)

/-- `d.get(k, default)` on a raw mapping. -/
def dictGet (d : RawDict) (k : String) (default : RawValue) : RawValue :=
  match List.lookup k d with
  | some v => v
  | none => default

/-! ## `models/trading.py`: the domain model -/

/-- `AccountOverview` (trading.py).  Fields keep the raw-value type:
`__post_init__` converts string inputs of the numeric fields to float
and leaves non-string inputs (and `Money_type`) untouched, so after
construction a numeric field holds either the original number or the
parsed value of its string. -/
structure AccountOverview where
  Djzj : RawValue
  Dryk : RawValue
  Kqzj : RawValue
  Kyzj : RawValue
  Ljyk : RawValue
  Money_type : RawValue
  RMBZzc : RawValue
  Zjye : RawValue
  Zxsz : RawValue
  Zzc : RawValue
deriving DecidableEq, Repr

/-- The float coercion `AccountOverview.__post_init__` applies to each
numeric field: a string is parsed with `float(...)` (raising, i.e.
`none`, when malformed), anything else passes through unchanged. -/
def floatCoerce (v : RawValue) : Option RawValue :=
  match v with
  | .str s => (parseDecStr? s).map fun p => RawValue.dec p.1 p.2
  | v => some v

/-- The decimal-designated `Position` fields (trading.py,
`__post_init__`). -/
def decimalFields : List String :=
  ["Cbjg", "Cbjgex", "Ckcb", "Ckcbj", "Ckyk", "Cwbl", "Dqcb", "Dryk",
   "Drykbl", "Ljyk", "Ykbl", "Zxjg", "Zxsz", "zxsznew"]

/-- The integer-designated `Position` fields (trading.py,
`__post_init__`). -/
def intFields : List String :=
  ["Djsl", "Gfmcdj", "Gfmrjd", "Gfssmmce", "Gfye", "Ksssl", "Kysl",
   "Mrssc", "Sssl", "Szjsbs", "Zqsl", "Ztmc", "Ztmr"]

/-- Per-field conversion of `Position.__post_init__`: a string in a
decimal-designated field is parsed with `Decimal(...)`, a string in an
integer-designated field with `int(...)` (either raising on malformed
input), every other value passes through unchanged. -/
def convertPosField (k : String) (v : RawValue) : Option RawValue :=
  if k ∈ decimalFields then
    match v with
    | .str s => (parseDecStr? s).map fun p => RawValue.dec p.1 p.2
    | v => some v
  else if k ∈ intFields then
    match v with
    | .str s => (parseIntStr? s).map RawValue.int
    | v => some v
  else some v

/-- A `Position` after construction: its field values with the
`__post_init__` conversions applied. -/
structure Position where
  entries : RawDict
deriving DecidableEq, Repr

/-- Apply a fallible function to every element in order; the first
failure (a raised exception) fails the whole construction. -/
def mapOrFail {α β : Type} (g : α → Option β) : List α → Option (List β)
  | [] => some []
  | a :: as =>
    match g a with
    | none => none
    | some b =>
      match mapOrFail g as with
      | none => none
      | some bs => some (b :: bs)

/-- `Position(**pos_data)` followed by `__post_init__`: every field is
converted per its designation; a malformed numeric string raises, i.e.
the whole construction is `none`.  (The source converts in the order
of its designated-field lists rather than mapping order; the resulting
field values, and whether construction raises, are the same.) -/
def mkPosition (raw : RawDict) : Option Position :=
  (mapOrFail (fun kv => (convertPosField kv.1 kv.2).map fun v => (kv.1, v)) raw).map
    fun l => Position.mk l

/-- `Portfolio` (trading.py): an ordered list of positions. -/
structure Portfolio where
  positions : List Position
deriving DecidableEq, Repr

/-- `Portfolio.add_position`: appends. -/
def Portfolio.add_position (p : Portfolio) (pos : Position) : Portfolio :=
  { p with positions := p.positions ++ [pos] }

/-- `AccountInfo` (trading.py): one username with its overview and
portfolio. -/
structure AccountInfo where
  username : String
  account_overview : AccountOverview
  portfolio : Portfolio
deriving DecidableEq, Repr

/-- `OrderRecord` (trading.py). -/
structure OrderRecord where
  Zqdm : String
  Zqmc : String
  order_id : String
  Mmsm : String
  Wtsl : String
  Wtjg : String
  Wtzt : String
  Cjsl : String
  Cjje : String
deriving DecidableEq, Repr

/-- `data.get(k, "")` on a string-valued raw order mapping. -/
def strGet (d : List (String × String)) (k : String) : String :=
  match List.lookup k d with
  | some v => v
  | none => ""

/-- `OrderRecord.from_dict` (trading.py): extracts the key fields with
`""` defaults and synthesizes `order_id` as `Wtrq`, an underscore,
`Wtbh`. -/
def OrderRecord.from_dict (data : List (String × String)) : OrderRecord :=
  { Zqdm := strGet data "Zqdm"
    Zqmc := strGet data "Zqmc"
    Mmsm := strGet data "Mmsm"
    Wtsl := strGet data "Wtsl"
    Wtjg := strGet data "Wtjg"
    Wtzt := strGet data "Wtzt"
    Cjsl := strGet data "Cjsl"
    Cjje := strGet data "Cjje"
    order_id := strGet data "Wtrq" ++ "_" ++ strGet data "Wtbh" }

/-- `PlaceOrderResult` (trading.py). -/
structure PlaceOrderResult where
  order_ids : List String
  success : Bool
  error_message : Option String
deriving DecidableEq, Repr

/-- `OrderType` (trading.py). -/
inductive OrderType where
  | BUY
  | SELL
deriving DecidableEq, Repr

/-- Wire codes of `OrderType`. -/
def OrderType.value : OrderType → String
  | .BUY => "B"
  | .SELL => "S"

/-! ## `core/agent.py`: the trading agent -/

/-- The mutable session state of a `TradingAgent`:
stored default credentials, the login flag, the accumulated
`AccountInfo` list, and the validation tokens held by the auth and API
collaborator clients (Python starts them out empty; the empty string
is the falsy "absent" token). -/
structure AgentState where
  username : Option String
  password : Option String
  is_logged_in : Bool
  account_info : List AccountInfo
  auth_validate_key : String
  api_validate_key : String
deriving DecidableEq, Repr

/-- One call to an external collaborator, recorded in an operation's
trace. -/
inductive CollabCall where
  | authLogin (username password : String) (duration : ℤ)
  | authLogout
  | queryAssetAndPosition
  | getMarketCode (stock_code : String)
  | submitTrade (stock_code : String) (trade_type : OrderType)
      (market : String) (price : ℚ) (amount : ℤ)
  | getOrdersData
  | revokeOrders (order_id : String)
deriving DecidableEq, Repr

/-- Python truthiness of an optional string: `None` and `""` are
falsy. -/
def pyTruthy : Option String → Bool
  | none => false
  | some s => !(s == "")

/-- Python `a or b` on optional strings. -/
def pyOr (a b : Option String) : Option String :=
  if pyTruthy a then a else b

/-- One raw entry of the asset-and-position response's `Data` list:
its scalar fields, plus the `"positions"` key when present (absent key
means `data.get("positions", [])` falls back to the empty list). -/
structure RawAccount where
  scalars : RawDict
  positions? : Option (List RawDict)
deriving DecidableEq, Repr

/-- The asset-and-position response: a mapping that may or may not
carry a `"Data"` list. -/
structure AssetPosResp where
  data? : Option (List RawAccount)
deriving DecidableEq, Repr

/-- Environment of one `login` call: the auth collaborator's outcome
(`Except.error` when the call itself raises, otherwise the success
flag and the `validate_key` the auth client then holds) and the
asset-and-position query's outcome (`Except.error` when it raises). -/
structure LoginEnv where
  auth : Except Unit (Bool × String)
  assetPos : Except Unit AssetPosResp

/-- The `safe_get_numeric` helper defined inside `login` (agent.py):
`data.get(key, 0)`, with an empty-string value replaced by the default
`0`. -/
def safe_get_numeric (d : RawAccount) (key : String) : RawValue :=
  let value := dictGet d.scalars key (RawValue.int 0)
  if value = RawValue.str "" then RawValue.int 0 else value

/-- Constructing the `AccountOverview` for one `Data` entry inside
`login`: each numeric field goes through `safe_get_numeric` and then
the `__post_init__` float coercion (any of which may raise);
`Money_type` is `data.get("Money_type", "")`, stored untouched. -/
def mkAccountOverview (d : RawAccount) : Option AccountOverview := do
  let djzj ← floatCoerce (safe_get_numeric d "Djzj")
  let dryk ← floatCoerce (safe_get_numeric d "Dryk")
  let kqzj ← floatCoerce (safe_get_numeric d "Kqzj")
  let kyzj ← floatCoerce (safe_get_numeric d "Kyzj")
  let ljyk ← floatCoerce (safe_get_numeric d "Ljyk")
  let rmbzzc ← floatCoerce (safe_get_numeric d "RMBZzc")
  let zjye ← floatCoerce (safe_get_numeric d "Zjye")
  let zxsz ← floatCoerce (safe_get_numeric d "Zxsz")
  let zzc ← floatCoerce (safe_get_numeric d "Zzc")
  some { Djzj := djzj, Dryk := dryk, Kqzj := kqzj, Kyzj := kyzj, Ljyk := ljyk
         Money_type := dictGet d.scalars "Money_type" (RawValue.str "")
         RMBZzc := rmbzzc, Zjye := zjye, Zxsz := zxsz, Zzc := zzc }

/-- One iteration body of the `Data` loop inside `login`: build the
`AccountOverview`, then build the `Portfolio` by constructing each
position of `data.get("positions", [])` and adding it, then bundle
with the username.  `none` models an exception anywhere inside the
iteration (before this entry is appended). -/
def buildAccountInfo (u : String) (d : RawAccount) : Option AccountInfo := do
  let overview ← mkAccountOverview d
  let poss ← mapOrFail mkPosition (d.positions?.getD [])
  some { username := u
         account_overview := overview
         portfolio := poss.foldl Portfolio.add_position { positions := [] } }

/-- The `Data` loop of `login`: entries are processed in order, each
successfully built `AccountInfo` is appended; the first exception
stops the loop, with the entries appended so far kept.  Returns the
appended entries and whether the loop completed without raising. -/
def processAccounts (u : String) : List RawAccount → List AccountInfo × Bool
  | [] => ([], true)
  | d :: rest =>
    match buildAccountInfo u d with
    | none => ([], false)
    | some ai =>
      let r := processAccounts u rest
      (ai :: r.1, r.2)

/-- `TradingAgent.login` (agent.py).  Returns the boolean result, the
agent state after the call, and the trace of collaborator calls. -/
def login (s : AgentState) (username? password? : Option String) (duration : ℤ)
    (env : LoginEnv) : Bool × AgentState × List CollabCall :=
  let login_username := pyOr username? s.username
  let login_password := pyOr password? s.password
  if pyTruthy login_username = false ∨ pyTruthy login_password = false then
    (false, s, [])
  else
    let lu := login_username.getD ""
    let lp := login_password.getD ""
    let s1 := { s with username := some lu, password := some lp }
    match env.auth with
    | Except.error _ =>
        (false, { s1 with is_logged_in := false }, [CollabCall.authLogin lu lp duration])
    | Except.ok (success, key) =>
      if success then
        let s2 := { s1 with is_logged_in := true, auth_validate_key := key
                            api_validate_key := key }
        match env.assetPos with
        | Except.error _ =>
            (false, { s2 with is_logged_in := false },
             [CollabCall.authLogin lu lp duration, CollabCall.queryAssetAndPosition])
        | Except.ok resp =>
          match resp.data? with
          | none =>
              (true, s2,
               [CollabCall.authLogin lu lp duration, CollabCall.queryAssetAndPosition])
          | some entries =>
            let pr := processAccounts lu entries
            let s3 := { s2 with account_info := s2.account_info ++ pr.1 }
            if pr.2 then
              (true, s3,
               [CollabCall.authLogin lu lp duration, CollabCall.queryAssetAndPosition])
            else
              (false, { s3 with is_logged_in := false },
               [CollabCall.authLogin lu lp duration, CollabCall.queryAssetAndPosition])
      else (false, s1, [CollabCall.authLogin lu lp duration])

/-- `TradingAgent.logout` (agent.py): clear the flag and the account
list, then instruct the auth collaborator to invalidate its token. -/
def logout (s : AgentState) : AgentState × List CollabCall :=
  ({ s with is_logged_in := false, account_info := [] }, [CollabCall.authLogout])

/-- One entry of the submit-trade response's `Data` list; only its
`Wtbh` ticket number is read. -/
structure TradeEntry where
  Wtbh : String
deriving DecidableEq, Repr

/-- The submit-trade response: `Status`, the `Message` read on
non-zero status, and the `Data` list read on zero status. -/
structure TradeResp where
  Status : ℤ
  Message : String
  Data : List TradeEntry
deriving DecidableEq, Repr

/-- A calendar date, for `datetime.now()`. -/
structure Date where
  year : ℕ
  month : ℕ
  day : ℕ
deriving DecidableEq, Repr

/-- Zero-pad a numeral to two digits. -/
def pad2 (n : ℕ) : String :=
  if n < 10 then "0" ++ toString n else toString n

/-- `strftime("%Y%m%d")`. -/
def formatYYYYMMDD (d : Date) : String :=
  toString d.year ++ pad2 d.month ++ pad2 d.day

/-- `TradingAgent.place_order` (agent.py).  `now` is the current date,
`market` the identifier the external `get_market_code` resolver
returns for `stock_code`, and `resp` the submit-trade response.
Returns `none` (Python `None`) when not logged in or the validation
token is empty, and the trace of collaborator calls. -/
def place_order (s : AgentState) (now : Date) (stock_code : String)
    (trade_type : OrderType) (amount : ℤ) (price : ℚ)
    (market : String) (resp : TradeResp) :
    Option PlaceOrderResult × List CollabCall :=
  if s.is_logged_in = false ∨ s.auth_validate_key = "" then (none, [])
  else if resp.Status ≠ 0 then
    (some { order_ids := [resp.Message], success := false
            error_message := some resp.Message },
     [CollabCall.getMarketCode stock_code,
      CollabCall.submitTrade stock_code trade_type market price amount])
  else
    (some { order_ids := resp.Data.map fun e => formatYYYYMMDD now ++ "_" ++ e.Wtbh
            success := true, error_message := none },
     [CollabCall.getMarketCode stock_code,
      CollabCall.submitTrade stock_code trade_type market price amount])

/-- The get-orders response: a mapping that may or may not carry a
`"Data"` list of string-valued order mappings. -/
structure OrdersResp where
  data? : Option (List (List (String × String)))
deriving DecidableEq, Repr

/-- `TradingAgent.query_orders` (agent.py). -/
def query_orders (s : AgentState) (resp : OrdersResp) :
    List OrderRecord × List CollabCall :=
  if s.is_logged_in = false ∨ s.auth_validate_key = "" then ([], [])
  else
    match resp.data? with
    | some entries => (entries.map OrderRecord.from_dict, [CollabCall.getOrdersData])
    | none => ([], [CollabCall.getOrdersData])

/-- `TradingAgent.cancel_order` (agent.py).  `resp` is whatever
mapping the revoke collaborator returns; it is logged and otherwise
ignored. -/
def cancel_order (s : AgentState) (order_id : String) (resp : RawDict) :
    Bool × List CollabCall :=
  if s.is_logged_in then (true, [CollabCall.revokeOrders order_id])
  else (false, [])

/-! ## Concrete sample values used to instantiate the results -/

/-- A freshly constructed agent (`TradingAgent.__init__` with no
credentials). -/
def s0 : AgentState :=
  { username := none, password := none, is_logged_in := false
    account_info := [], auth_validate_key := "", api_validate_key := "" }

/-- A logged-in agent holding a validation token. -/
def siLoggedIn : AgentState :=
  { username := some "u", password := some "p", is_logged_in := true
    account_info := [], auth_validate_key := "key", api_validate_key := "key" }

/-- A raw account mapping whose numeric fields all arrive as the empty
string. -/
def emptyStrAccount : RawAccount :=
  { scalars :=
      [("Djzj", RawValue.str ""), ("Dryk", RawValue.str ""),
       ("Kqzj", RawValue.str ""), ("Kyzj", RawValue.str ""),
       ("Ljyk", RawValue.str ""), ("RMBZzc", RawValue.str ""),
       ("Zjye", RawValue.str ""), ("Zxsz", RawValue.str ""),
       ("Zzc", RawValue.str "")]
    positions? := none }

/-- A raw account mapping with one numeric field as a non-empty
numeral string. -/
def acctZzc : RawAccount :=
  { scalars := [("Zzc", RawValue.str "12.340")], positions? := none }

/-- A raw `Data` entry whose account builds cleanly (missing scalar
keys default to `0`, no positions key). -/
def goodAcct : RawAccount := { scalars := [], positions? := none }

/-- A raw position mapping carrying every `Position` field, with the
decimal-designated `Cbjg` field malformed: `Decimal("abc")` raises. -/
def badPosRaw : RawDict :=
  [("Bz", RawValue.str "RMB"), ("Cbjg", RawValue.str "abc"),
   ("Cbjgex", RawValue.str "10.500"), ("Ckcb", RawValue.str "1050.00"),
   ("Ckcbj", RawValue.str "10.500"), ("Ckyk", RawValue.str "0.00"),
   ("Cwbl", RawValue.str "0.10"), ("Djsl", RawValue.str "0"),
   ("Dqcb", RawValue.str "1050.00"), ("Dryk", RawValue.str "0.00"),
   ("Drykbl", RawValue.str "0.00"), ("Gddm", RawValue.str "A123"),
   ("Gfmcdj", RawValue.str "0"), ("Gfmrjd", RawValue.str "0"),
   ("Gfssmmce", RawValue.str "0"), ("Gfye", RawValue.str "100"),
   ("Jgbm", RawValue.str "1"), ("Khdm", RawValue.str "777"),
   ("Ksssl", RawValue.str "100"), ("Kysl", RawValue.str "100"),
   ("Ljyk", RawValue.str "0.00"), ("Market", RawValue.str "HA"),
   ("Mrssc", RawValue.str "0"), ("Sssl", RawValue.str "0"),
   ("Szjsbs", RawValue.str "1"), ("Ykbl", RawValue.str "0.00"),
   ("Zjzh", RawValue.str "777"), ("Zqdm", RawValue.str "600000"),
   ("Zqlx", RawValue.str "0"), ("Zqlxmc", RawValue.str "A"),
   ("Zqmc", RawValue.str "PFYH"), ("Zqsl", RawValue.str "100"),
   ("Ztmc", RawValue.str "0"), ("Ztmr", RawValue.str "0"),
   ("Zxjg", RawValue.str "10.500"), ("Zxsz", RawValue.str "1050.00"),
   ("zqzwqc", RawValue.str "PFYH"), ("zxsznew", RawValue.str "1050.00")]

/-- A raw `Data` entry whose positions list contains `badPosRaw`, so
building it raises mid-loop. -/
def badAcct : RawAccount := { scalars := [], positions? := some [badPosRaw] }

/-- A raw position mapping carrying every `Position` field, with the
integer-designated `Zqsl` field malformed: `int("12.5")` raises (while
every decimal-designated field is well-formed). -/
def badPosIntRaw : RawDict :=
  [("Bz", RawValue.str "RMB"), ("Cbjg", RawValue.str "10.500"),
   ("Cbjgex", RawValue.str "10.500"), ("Ckcb", RawValue.str "1050.00"),
   ("Ckcbj", RawValue.str "10.500"), ("Ckyk", RawValue.str "0.00"),
   ("Cwbl", RawValue.str "0.10"), ("Djsl", RawValue.str "0"),
   ("Dqcb", RawValue.str "1050.00"), ("Dryk", RawValue.str "0.00"),
   ("Drykbl", RawValue.str "0.00"), ("Gddm", RawValue.str "A123"),
   ("Gfmcdj", RawValue.str "0"), ("Gfmrjd", RawValue.str "0"),
   ("Gfssmmce", RawValue.str "0"), ("Gfye", RawValue.str "100"),
   ("Jgbm", RawValue.str "1"), ("Khdm", RawValue.str "777"),
   ("Ksssl", RawValue.str "100"), ("Kysl", RawValue.str "100"),
   ("Ljyk", RawValue.str "0.00"), ("Market", RawValue.str "HA"),
   ("Mrssc", RawValue.str "0"), ("Sssl", RawValue.str "0"),
   ("Szjsbs", RawValue.str "1"), ("Ykbl", RawValue.str "0.00"),
   ("Zjzh", RawValue.str "777"), ("Zqdm", RawValue.str "600000"),
   ("Zqlx", RawValue.str "0"), ("Zqlxmc", RawValue.str "A"),
   ("Zqmc", RawValue.str "PFYH"), ("Zqsl", RawValue.str "12.5"),
   ("Ztmc", RawValue.str "0"), ("Ztmr", RawValue.str "0"),
   ("Zxjg", RawValue.str "10.500"), ("Zxsz", RawValue.str "1050.00"),
   ("zqzwqc", RawValue.str "PFYH"), ("zxsznew", RawValue.str "1050.00")]

/-- A login environment where authentication succeeds and the
asset-and-position response carries a clean entry followed by one that
raises during construction. -/
def envC1 : LoginEnv :=
  { auth := Except.ok (true, "key123")
    assetPos := Except.ok { data? := some [goodAcct, badAcct] } }

/-- A login environment where the auth collaborator reports
failure. -/
def envAuthFail : LoginEnv :=
  { auth := Except.ok (false, ""), assetPos := Except.ok { data? := none } }

/-- A submit-trade response with non-zero status. -/
def respInsufficient : TradeResp :=
  { Status := -1, Message := "insufficient funds", Data := [] }

/-- A submit-trade response with zero status and one confirmation
leg. -/
def respOneLeg : TradeResp :=
  { Status := 0, Message := "", Data := [{ Wtbh := "130662" }] }

/-- A raw order mapping as returned in the get-orders `Data` list. -/
def orderDict1 : List (String × String) :=
  [("Wtrq", "20240520"), ("Wtbh", "77"), ("Zqdm", "600000")]

/-- A get-orders response carrying one order. -/
def ordersResp1 : OrdersResp := { data? := some [orderDict1] }

/-! ## Helper lemmas -/

/-- `mapOrFail` fails as soon as any element fails. -/
theorem mapOrFail_none_of_mem {α β : Type} (g : α → Option β) :
    ∀ (l : List α) (x : α), x ∈ l → g x = none → mapOrFail g l = none := by
  intro l
  induction l with
  | nil => intro x hx _; cases hx
  | cons a as ih =>
    intro x hx hgx
    cases hx with
    | head => simp [mapOrFail, hgx]
    | tail _ hmem =>
      cases hga : g a with
      | none => simp [mapOrFail, hga]
      | some b => simp [mapOrFail, hga, ih x hmem hgx]

/-- The integer-designated and decimal-designated position fields are
disjoint. -/
theorem intFields_not_decimalFields {k : String} (h : k ∈ intFields) :
    k ∉ decimalFields := by
  simp only [intFields, List.mem_cons, List.not_mem_nil, or_false] at h
  rcases h with rfl | rfl | rfl | rfl | rfl | rfl | rfl | rfl | rfl | rfl | rfl | rfl | rfl <;>
    decide

/-! ## The claims -/

/-- C2: for every raw account mapping in which a numeric field's raw
value is the empty string, the produced `AccountOverview` stores that
field as the numeric zero substituted by `safe_get_numeric` (never a
parse error), and a non-empty numeral string is coerced to its
floating-point value; an account whose numeric fields are all empty
strings materializes with every numeric field zero. -/
theorem C2_empty_string_numeric_zero :
    (∀ (d : RawAccount) (k : String),
        List.lookup k d.scalars = some (RawValue.str "") →
        floatCoerce (safe_get_numeric d k) = some (RawValue.int 0) ∧
        (RawValue.int 0).val? = some 0) ∧
    (∀ (d : RawAccount) (k s : String) (m : ℤ) (e : ℕ),
        List.lookup k d.scalars = some (RawValue.str s) → s ≠ "" →
        parseDecStr? s = some (m, e) →
        floatCoerce (safe_get_numeric d k) = some (RawValue.dec m e)) ∧
    mkAccountOverview emptyStrAccount =
      some { Djzj := RawValue.int 0, Dryk := RawValue.int 0, Kqzj := RawValue.int 0
             Kyzj := RawValue.int 0, Ljyk := RawValue.int 0
             Money_type := RawValue.str "", RMBZzc := RawValue.int 0
             Zjye := RawValue.int 0, Zxsz := RawValue.int 0, Zzc := RawValue.int 0 } := by
  refine ⟨?_, ?_, by decide⟩
  · intro d k h
    refine ⟨?_, rfl⟩
    simp [safe_get_numeric, dictGet, h, floatCoerce]
  · intro d k s m e h hs hp
    have hne : RawValue.str s ≠ RawValue.str "" := by simpa using hs
    simp [safe_get_numeric, dictGet, h, hne, floatCoerce, hp]

/-- C2 witness: the empty-string and numeral-string clauses at
concrete inputs. -/
theorem C2_empty_string_numeric_zero_witness :
    floatCoerce (safe_get_numeric emptyStrAccount "Djzj") = some (RawValue.int 0) ∧
    floatCoerce (safe_get_numeric acctZzc "Zzc") = some (RawValue.dec 12340 3) :=
  ⟨(C2_empty_string_numeric_zero.1 emptyStrAccount "Djzj" (by decide)).1,
   C2_empty_string_numeric_zero.2.1 acctZzc "Zzc" "12.340" 12340 3 (by decide)
     (by decide) (by decide)⟩

/-- C8: `Position` construction stores each decimal-designated field
given as a string as the exact decimal value of that string (in
particular `"12.340"` is the exact `12340 / 10 ^ 3 = 1234 / 100`, not
a float-rounded value), stores each integer-designated field given as
a string as an integer, passes non-string inputs through unchanged,
and propagates a parse failure on any malformed numeric string rather
than substituting zero. -/
theorem C8_position_normalization :
    (∀ (k s : String) (m : ℤ) (e : ℕ), k ∈ decimalFields →
        parseDecStr? s = some (m, e) →
        convertPosField k (RawValue.str s) = some (RawValue.dec m e)) ∧
    (∀ (k s : String) (n : ℤ), k ∈ intFields → parseIntStr? s = some n →
        convertPosField k (RawValue.str s) = some (RawValue.int n)) ∧
    (∀ (k : String) (n : ℤ), convertPosField k (RawValue.int n) = some (RawValue.int n)) ∧
    (∀ (k : String) (m : ℤ) (e : ℕ),
        convertPosField k (RawValue.dec m e) = some (RawValue.dec m e)) ∧
    (parseDecStr? "12.340" = some (12340, 3) ∧
      (RawValue.dec 12340 3).val? = some ((1234 : ℚ) / 100)) ∧
    (∀ (raw : RawDict) (k s : String), (k, RawValue.str s) ∈ raw →
        k ∈ decimalFields → parseDecStr? s = none → mkPosition raw = none) ∧
    (∀ (raw : RawDict) (k s : String), (k, RawValue.str s) ∈ raw →
        k ∈ intFields → parseIntStr? s = none → mkPosition raw = none) := by
  refine ⟨?_, ?_, ?_, ?_, ⟨by decide, by norm_num [RawValue.val?]⟩, ?_, ?_⟩
  · intro k s m e hk hp
    simp [convertPosField, hk, hp]
  · intro k s n hk hp
    have hd := intFields_not_decimalFields hk
    simp [convertPosField, hd, hk, hp]
  · intro k n
    by_cases h1 : k ∈ decimalFields <;> by_cases h2 : k ∈ intFields <;>
      simp [convertPosField, h1, h2]
  · intro k m e
    by_cases h1 : k ∈ decimalFields <;> by_cases h2 : k ∈ intFields <;>
      simp [convertPosField, h1, h2]
  · intro raw k s hmem hk hp
    have hconv : convertPosField k (RawValue.str s) = none := by
      simp [convertPosField, hk, hp]
    have hfail :
        mapOrFail (fun kv => (convertPosField kv.1 kv.2).map fun v => (kv.1, v)) raw =
          none := by
      refine mapOrFail_none_of_mem _ raw (k, RawValue.str s) hmem ?_
      simp [hconv]
    simp [mkPosition, hfail]
  · intro raw k s hmem hk hp
    have hd := intFields_not_decimalFields hk
    have hconv : convertPosField k (RawValue.str s) = none := by
      simp [convertPosField, hd, hk, hp]
    have hfail :
        mapOrFail (fun kv => (convertPosField kv.1 kv.2).map fun v => (kv.1, v)) raw =
          none := by
      refine mapOrFail_none_of_mem _ raw (k, RawValue.str s) hmem ?_
      simp [hconv]
    simp [mkPosition, hfail]

/-- C8 witness: the decimal, integer and both failure-propagation
clauses at concrete inputs, each on a full position mapping with one
malformed field of the respective designation. -/
theorem C8_position_normalization_witness :
    convertPosField "Cbjg" (RawValue.str "12.340") = some (RawValue.dec 12340 3) ∧
    convertPosField "Zqsl" (RawValue.str "100") = some (RawValue.int 100) ∧
    mkPosition badPosRaw = none ∧
    mkPosition badPosIntRaw = none :=
  ⟨C8_position_normalization.1 "Cbjg" "12.340" 12340 3 (by decide) (by decide),
   C8_position_normalization.2.1 "Zqsl" "100" 100 (by decide) (by decide),
   C8_position_normalization.2.2.2.2.2.1 badPosRaw "Cbjg" "abc" (by decide) (by decide)
     (by decide),
   C8_position_normalization.2.2.2.2.2.2 badPosIntRaw "Zqsl" "12.5" (by decide)
     (by decide) (by decide)⟩

/-- C3: `place_order` while logged in with a non-empty validation
token, on a response with non-zero `Status`, returns a
`PlaceOrderResult` with `success = false`, `error_message` equal to
the response's `Message`, and `order_ids` the single-element list
containing that same message string. -/
theorem C3_place_order_nonzero_status (s : AgentState) (now : Date)
    (stock_code : String) (trade_type : OrderType) (amount : ℤ) (price : ℚ)
    (market : String) (resp : TradeResp)
    (hlog : s.is_logged_in = true) (hkey : s.auth_validate_key ≠ "")
    (hst : resp.Status ≠ 0) :
    (place_order s now stock_code trade_type amount price market resp).1 =
      some { order_ids := [resp.Message], success := false
             error_message := some resp.Message } := by
  have h1 : ¬(s.is_logged_in = false ∨ s.auth_validate_key = "") := by
    simp [hlog, hkey]
  simp [place_order, h1, hst]

/-- C3 witness: status `-1` with message `"insufficient funds"`. -/
theorem C3_place_order_nonzero_status_witness :
    (place_order siLoggedIn ⟨2024, 5, 20⟩ "600000" OrderType.BUY 100 10 "HA"
        respInsufficient).1 =
      some { order_ids := ["insufficient funds"], success := false
             error_message := some "insufficient funds" } := by
  rw [C3_place_order_nonzero_status siLoggedIn ⟨2024, 5, 20⟩ "600000" OrderType.BUY
    100 10 "HA" respInsufficient (by decide) (by decide) (by decide)]
  decide

/-- C4: `place_order` while logged in with a non-empty validation
token, on a response with `Status = 0`, synthesizes one order id per
`Data` entry as the current date formatted `YYYYMMDD`, an underscore,
and the entry's `Wtbh` field, and returns exactly those ids in order
with `success = true` and no error message. -/
theorem C4_place_order_zero_status (s : AgentState) (now : Date)
    (stock_code : String) (trade_type : OrderType) (amount : ℤ) (price : ℚ)
    (market : String) (resp : TradeResp)
    (hlog : s.is_logged_in = true) (hkey : s.auth_validate_key ≠ "")
    (hst : resp.Status = 0) :
    (place_order s now stock_code trade_type amount price market resp).1 =
      some { order_ids := resp.Data.map fun e => formatYYYYMMDD now ++ "_" ++ e.Wtbh
             success := true, error_message := none } := by
  have h1 : ¬(s.is_logged_in = false ∨ s.auth_validate_key = "") := by
    simp [hlog, hkey]
  simp [place_order, h1, hst]

/-- C4 witness: one `Data` entry with ticket `"130662"` on 2024-05-20
yields order id `"20240520_130662"`. -/
theorem C4_place_order_zero_status_witness :
    (place_order siLoggedIn ⟨2024, 5, 20⟩ "600000" OrderType.BUY 100 10 "HA"
        respOneLeg).1 =
      some { order_ids := ["20240520_130662"], success := true
             error_message := none } := by
  rw [C4_place_order_zero_status siLoggedIn ⟨2024, 5, 20⟩ "600000" OrderType.BUY
    100 10 "HA" respOneLeg (by decide) (by decide) (by decide)]
  decide

/-- C5: when neither the arguments nor the stored defaults yield both
a username and a password, `login` returns `false` with the agent's
state unchanged and with an empty collaborator-call trace (no
collaborator is invoked). -/
theorem C5_login_missing_credentials (s : AgentState)
    (username? password? : Option String) (duration : ℤ) (env : LoginEnv)
    (h : pyTruthy (pyOr username? s.username) = false ∨
         pyTruthy (pyOr password? s.password) = false) :
    login s username? password? duration env = (false, s, []) := by
  unfold login
  rw [if_pos h]

/-- C5 witness: a username argument with no password anywhere. -/
theorem C5_login_missing_credentials_witness :
    login s0 (some "user") none 30 envAuthFail = (false, s0, []) :=
  C5_login_missing_credentials s0 (some "user") none 30 envAuthFail
    (Or.inr (by decide))

/-- C6: `cancel_order` returns the login flag — `false` when not
logged in, `true` when logged in — and its entire outcome is
independent of the revoke collaborator's returned mapping. -/
theorem C6_cancel_order_ignores_response (s : AgentState) (order_id : String)
    (resp resp' : RawDict) :
    (cancel_order s order_id resp).1 = s.is_logged_in ∧
    cancel_order s order_id resp = cancel_order s order_id resp' := by
  constructor
  · by_cases h : s.is_logged_in <;> simp [cancel_order, h]
  · rfl

/-- C7: `query_orders` returns the empty list when not logged in or
the validation token is absent; otherwise it maps each `Data` entry
through `OrderRecord.from_dict` in order (empty when no `Data` key is
present), and every record's `order_id` is the entry's `Wtrq` field,
an underscore, and its `Wtbh` field. -/
theorem C7_query_orders_mapping (s : AgentState) (resp : OrdersResp) :
    ((s.is_logged_in = false ∨ s.auth_validate_key = "") →
        (query_orders s resp).1 = []) ∧
    (s.is_logged_in = true → s.auth_validate_key ≠ "" →
        ((∀ entries, resp.data? = some entries →
            (query_orders s resp).1 = entries.map OrderRecord.from_dict) ∧
         (resp.data? = none → (query_orders s resp).1 = []))) ∧
    (∀ d, (OrderRecord.from_dict d).order_id =
        strGet d "Wtrq" ++ "_" ++ strGet d "Wtbh") := by
  refine ⟨?_, ?_, fun d => rfl⟩
  · intro h
    unfold query_orders
    rw [if_pos h]
  · intro h1 h2
    have hc : ¬(s.is_logged_in = false ∨ s.auth_validate_key = "") := by
      simp [h1, h2]
    constructor
    · intro entries he
      simp [query_orders, hc, he]
    · intro he
      simp [query_orders, hc, he]

/-- C7 witness: a logged-in query over one raw entry yields one record
with `order_id = "20240520_77"`. -/
theorem C7_query_orders_mapping_witness :
    (query_orders siLoggedIn ordersResp1).1 = [OrderRecord.from_dict orderDict1] ∧
    (OrderRecord.from_dict orderDict1).order_id = "20240520_77" := by
  constructor
  · have h := ((C7_query_orders_mapping siLoggedIn ordersResp1).2.1 (by decide)
      (by decide)).1 [orderDict1] (by decide)
    simpa using h
  · rw [(C7_query_orders_mapping siLoggedIn ordersResp1).2.2 orderDict1]
    decide

/-- C9: `logout` always leaves the agent logged out with an empty
account list, invokes the auth collaborator's token invalidation, and
is idempotent: a second `logout` produces the same agent state. -/
theorem C9_logout_idempotent (s : AgentState) :
    (logout s).1.is_logged_in = false ∧
    (logout s).1.account_info = [] ∧
    (logout s).2 = [CollabCall.authLogout] ∧
    (logout (logout s).1).1 = (logout s).1 :=
  ⟨rfl, rfl, rfl, rfl⟩

/-- C10: `login` only ever appends to the account list — the entries
present before any call remain in place, in order, at the front of the
list afterwards. -/
theorem C10_login_only_appends (s : AgentState)
    (username? password? : Option String) (duration : ℤ) (env : LoginEnv) :
    ∃ newEntries, (login s username? password? duration env).2.1.account_info =
      s.account_info ++ newEntries := by
  unfold login
  dsimp only
  repeat' split
  all_goals first
    | exact ⟨_, rfl⟩
    | exact ⟨[], by simp⟩

/-- C1 counterexample: against a successful authentication whose
snapshot response holds a clean `Data` entry followed by one whose
position construction raises, `login` returns `false` and resets
`is_logged_in`, but the account list is NOT empty — the `AccountInfo`
built from the first entry is retained. -/
theorem C1_login_failure_reset_counterexample :
    (login s0 (some "u") (some "p") 30 envC1).1 = false ∧
    (login s0 (some "u") (some "p") 30 envC1).2.1.is_logged_in = false ∧
    (login s0 (some "u") (some "p") 30 envC1).2.1.account_info ≠ [] := by
  decide

/-- C1 as amended: on auth-collaborator failure `login` returns
`false` leaving the login flag and account list unchanged; on an
exception during the snapshot fetch itself it returns `false` with
`is_logged_in = false` and the account list unchanged; on an exception
inside the per-entry construction loop it returns `false` with
`is_logged_in = false`, retaining the `AccountInfo` entries appended
before the failure (the list is not reset). -/
theorem C1_login_failure_reset_amended (s : AgentState)
    (username? password? : Option String) (duration : ℤ) (env : LoginEnv)
    (hu : pyTruthy (pyOr username? s.username) = true)
    (hp : pyTruthy (pyOr password? s.password) = true) :
    (∀ k, env.auth = Except.ok (false, k) →
        (login s username? password? duration env).1 = false ∧
        (login s username? password? duration env).2.1.is_logged_in = s.is_logged_in ∧
        (login s username? password? duration env).2.1.account_info = s.account_info) ∧
    (∀ k, env.auth = Except.ok (true, k) → env.assetPos = Except.error () →
        (login s username? password? duration env).1 = false ∧
        (login s username? password? duration env).2.1.is_logged_in = false ∧
        (login s username? password? duration env).2.1.account_info = s.account_info) ∧
    (∀ k resp entries, env.auth = Except.ok (true, k) →
        env.assetPos = Except.ok resp → resp.data? = some entries →
        (processAccounts ((pyOr username? s.username).getD "") entries).2 = false →
        (login s username? password? duration env).1 = false ∧
        (login s username? password? duration env).2.1.is_logged_in = false ∧
        (login s username? password? duration env).2.1.account_info =
          s.account_info ++
            (processAccounts ((pyOr username? s.username).getD "") entries).1) := by
  have hcond : ¬(pyTruthy (pyOr username? s.username) = false ∨
      pyTruthy (pyOr password? s.password) = false) := by simp [hu, hp]
  refine ⟨?_, ?_, ?_⟩
  · intro k hk
    simp [login, hcond, hk]
  · intro k hk hq
    simp [login, hcond, hk, hq]
  · intro k resp entries hk hq hdata hfail
    simp [login, hcond, hk, hq, hdata, hfail]

/-- C1 amended witness: the loop-failure clause at the concrete
counterexample environment. -/
theorem C1_login_failure_reset_amended_witness :
    (login s0 (some "u") (some "p") 30 envC1).1 = false ∧
    (login s0 (some "u") (some "p") 30 envC1).2.1.is_logged_in = false ∧
    (login s0 (some "u") (some "p") 30 envC1).2.1.account_info =
      s0.account_info ++ (processAccounts "u" [goodAcct, badAcct]).1 := by
  have h := (C1_login_failure_reset_amended s0 (some "u") (some "p") 30 envC1
      (by decide) (by decide)).2.2 "key123" { data? := some [goodAcct, badAcct] }
      [goodAcct, badAcct] rfl rfl rfl (by decide)
  simpa using h

end EMTA
